import Mathlib

/-!
# mruby-kalman: the two-state angle/bias Kalman filter of `src/kalman.c`

The C doubles are read in exact arithmetic: every `double` of the source is a
rational number, `+ - * /` are the field operations of `ℚ`.  The division of
`ℚ` is total (`x / 0 = 0`); the theorems that depend on a quotient being a
true quotient carry the hypothesis that makes the divisor non-zero.

The record `kalman_data_s` is the C struct, with the arrays `P[2][2]` and
`K[2]` spelled out entry by entry (`P01` is `P[0][1]`).  Each function of the
source that the development needs is a function on that record; the in-place
assignments of the C code are kept in their order, one `let` per statement.

The same functions are given a second time over IEEE 754 doubles (suffix
`_d`), with correctly rounded operations, infinities and NaN.  The claims that
speak of exact arithmetic are settled on the rational reading; the double
reading shows, at concrete inputs, where a claim that holds in exact
arithmetic fails in the arithmetic of the program.

The indexed accessors `[]` and `[]=` subscript `P` with unchecked `mrb_int`s.
They are modelled on the layout of the struct, thirteen consecutive doubles:
`P[i][j]` is the double `2 * i + j` places after `P[0][0]`, whichever field
that is, and a place outside the struct is outside the model.
-/

namespace Kalman

/-- The C struct `kalman_data_s` (kalman.c, lines 38-48). -/
structure kalman_data_s where
  theta_est : ℚ
  thetad_bias_est : ℚ
  Q_theta : ℚ
  Q_thetad_bias : ℚ
  R : ℚ
  y : ℚ
  S : ℚ
  P00 : ℚ
  P01 : ℚ
  P10 : ℚ
  P11 : ℚ
  K0 : ℚ
  K1 : ℚ
  deriving DecidableEq, Repr

/-- The struct right after `memset(p_data, 0, sizeof(kalman_data_s))`
(kalman.c, line 91). -/
def zeroed : kalman_data_s :=
  { theta_est := 0, thetad_bias_est := 0, Q_theta := 0, Q_thetad_bias := 0,
    R := 0, y := 0, S := 0, P00 := 0, P01 := 0, P10 := 0, P11 := 0,
    K0 := 0, K1 := 0 }

/-- `mrb_kalman_init` (kalman.c, lines 77-111).  `old` is what the instance
variable `@data` held before the call (`none` for nil): the C code frees it,
allocates a fresh struct, zeroes it and then assigns nine fields. -/
def mrb_kalman_init (old : Option kalman_data_s) (theta thetad : ℚ) :
    kalman_data_s :=
  let p_data := match old with
    | some _ => zeroed
    | none => zeroed
  let p_data := { p_data with theta_est := theta }
  let p_data := { p_data with thetad_bias_est := thetad }
  let p_data := { p_data with Q_theta := 1 / 10000000 }
  let p_data := { p_data with Q_thetad_bias := 1 / 100000 }
  let p_data := { p_data with R := 2 }
  let p_data := { p_data with P00 := 10 }
  let p_data := { p_data with P10 := 0 }
  let p_data := { p_data with P01 := 0 }
  let p_data := { p_data with P11 := 10 }
  p_data

/-- What `mrb_get_args(mrb, "|ff", &theta, &thetad)` does with the locals of
`mrb_kalman_initialize`: both arguments are optional floats, the result is the
number of arguments received together with the two locals afterwards; a local
whose argument is absent keeps the value it had.  More than two arguments are
rejected by the interpreter (`none`). -/
def mrb_get_args_opt_ff (args : List ℚ) (theta thetad : ℚ) :
    Option (ℕ × ℚ × ℚ) :=
  match args with
  | [] => some (0, theta, thetad)
  | [a] => some (1, a, thetad)
  | [a, b] => some (2, a, b)
  | _ => none

/-- `mrb_kalman_initialize` (kalman.c, lines 113-126).  `garbage` is the
indeterminate initial value of the uninitialised local `theta`; `thetad`
starts at `0.0`.  The three-way branch on `narg` is kept as written. -/
def mrb_kalman_initialize (old : Option kalman_data_s) (garbage : ℚ)
    (args : List ℚ) : Option kalman_data_s :=
  match mrb_get_args_opt_ff args garbage 0 with
  | none => none
  | some (narg, theta, thetad) =>
    if narg = 1 then some (mrb_kalman_init old theta 0)
    else if narg = 0 then some (mrb_kalman_init old 0 0)
    else some (mrb_kalman_init old theta thetad)

/-- The "estimate step" of `mrb_kalman_update` (kalman.c, lines 266-271):
five in-place assignments, in the order of the source. -/
def estimate_step (d : kalman_data_s) (dt thetad : ℚ) : kalman_data_s :=
  let d := { d with theta_est := d.theta_est + dt * (thetad - d.thetad_bias_est) }
  let d := { d with P00 := d.P00 + dt * (d.P11 * dt - d.P01 - d.P10 + d.Q_theta) }
  let d := { d with P01 := d.P01 - d.P11 * dt }
  let d := { d with P10 := d.P10 - d.P11 * dt }
  let d := { d with P11 := d.P11 + d.Q_thetad_bias * dt }
  d

/-- The "observation step" of `mrb_kalman_update` (kalman.c, lines 273-274). -/
def observation_step (d : kalman_data_s) (theta : ℚ) : kalman_data_s :=
  let d := { d with y := theta - d.theta_est }
  let d := { d with S := d.P00 + d.R }
  d

/-- The "update step" of `mrb_kalman_update` (kalman.c, lines 276-285): the
two gains, the state correction and the four in-place covariance
assignments, in the order of the source. -/
def update_step (d : kalman_data_s) : kalman_data_s :=
  let d := { d with K0 := d.P00 / d.S }
  let d := { d with K1 := d.P10 / d.S }
  let d := { d with theta_est := d.theta_est + d.K0 * d.y }
  let d := { d with thetad_bias_est := d.thetad_bias_est + d.K1 * d.y }
  let d := { d with P00 := d.P00 - d.K0 * d.P00 }
  let d := { d with P01 := d.P01 - d.K0 * d.P01 }
  let d := { d with P10 := d.P10 - d.K1 * d.P00 }
  let d := { d with P11 := d.P11 - d.K1 * d.P01 }
  d

/-- `mrb_kalman_update` (kalman.c, lines 256-288): the struct after the call
and the returned float `p_data->theta_est`. -/
def mrb_kalman_update (d : kalman_data_s) (dt theta thetad : ℚ) :
    kalman_data_s × ℚ :=
  let d := estimate_step d dt thetad
  let d := observation_step d theta
  let d := update_step d
  (d, d.theta_est)

/-- The struct after `n` successive calls `update(dt, theta, thetad)` with
the same three arguments. -/
def run (d : kalman_data_s) (dt theta thetad : ℚ) : ℕ → kalman_data_s
  | 0 => d
  | n + 1 => (mrb_kalman_update (run d dt theta thetad n) dt theta thetad).1

/-- `mrb_kalman_set_Q_theta` (kalman.c, lines 158-167): the struct after the
call and the returned float. -/
def mrb_kalman_set_Q_theta (d : kalman_data_s) (v : ℚ) : kalman_data_s × ℚ :=
  let d := { d with Q_theta := v }
  (d, d.Q_theta)

/-- `mrb_kalman_set_Q_thetad` (kalman.c, lines 179-188). -/
def mrb_kalman_set_Q_thetad (d : kalman_data_s) (v : ℚ) : kalman_data_s × ℚ :=
  let d := { d with Q_thetad_bias := v }
  (d, d.Q_thetad_bias)

/-- `mrb_kalman_set_R` (kalman.c, lines 200-209). -/
def mrb_kalman_set_R (d : kalman_data_s) (v : ℚ) : kalman_data_s × ℚ :=
  let d := { d with R := v }
  (d, d.R)

/-- The start of a zero-process-noise run: `Kalman.new(theta0, 0)` followed by
`Q_theta = 0`, `Q_thetad = 0` and `R = r`. -/
def zero_noise_start (theta0 r : ℚ) : kalman_data_s :=
  let d := mrb_kalman_init none theta0 0
  let d := (mrb_kalman_set_Q_theta d 0).1
  let d := (mrb_kalman_set_Q_thetad d 0).1
  let d := (mrb_kalman_set_R d r).1
  d

/-- Formula of the specification, not code: the predicted angle
`tp = theta + dt * (thetad_meas - bias)` of the pre-call state. -/
def spec_tp (d : kalman_data_s) (dt thetad_meas : ℚ) : ℚ :=
  d.theta_est + dt * (thetad_meas - d.thetad_bias_est)

/-- Formula of the specification, not code:
`P00p = p00 + dt * (p11 * dt - p01 - p10 + q_theta)` of the pre-call state. -/
def spec_P00p (d : kalman_data_s) (dt : ℚ) : ℚ :=
  d.P00 + dt * (d.P11 * dt - d.P01 - d.P10 + d.Q_theta)

/-- Formula of the specification, not code: `P01p = p01 - p11 * dt`. -/
def spec_P01p (d : kalman_data_s) (dt : ℚ) : ℚ := d.P01 - d.P11 * dt

/-- Formula of the specification, not code: `P10p = p10 - p11 * dt`. -/
def spec_P10p (d : kalman_data_s) (dt : ℚ) : ℚ := d.P10 - d.P11 * dt

/-- Formula of the specification, not code: `P11p = p11 + q_bias * dt`. -/
def spec_P11p (d : kalman_data_s) (dt : ℚ) : ℚ := d.P11 + d.Q_thetad_bias * dt

/-- Formula of the specification, not code: `k0 = P00p / (P00p + r)`. -/
def spec_k0 (d : kalman_data_s) (dt : ℚ) : ℚ := spec_P00p d dt / (spec_P00p d dt + d.R)

/-- Formula of the specification, not code: `k1 = P10p / (P00p + r)`. -/
def spec_k1 (d : kalman_data_s) (dt : ℚ) : ℚ := spec_P10p d dt / (spec_P00p d dt + d.R)

/-- Sign pattern of the covariance entries that every call of
`mrb_kalman_update` with `dt ≥ 0` keeps. -/
def CovInv (d : kalman_data_s) : Prop :=
  0 ≤ d.P00 ∧ 0 ≤ d.P11 ∧ d.P01 ≤ 0 ∧ d.P10 ≤ 0 ∧ d.P01 * d.P10 ≤ d.P00 * d.P11

/-- Positive semi-definiteness of the stored matrix `P`: the quadratic form
`x^T P x` is non-negative at every vector `x = (x0, x1)`. -/
def PosSemidef (d : kalman_data_s) : Prop :=
  ∀ x0 x1 : ℚ, 0 ≤ x0 * (d.P00 * x0 + d.P01 * x1) + x1 * (d.P10 * x0 + d.P11 * x1)

/-- `mrb_kalman_Q_theta` (kalman.c, lines 148-156). -/
def mrb_kalman_Q_theta (d : kalman_data_s) : ℚ := d.Q_theta

/-- `mrb_kalman_Q_thetad` (kalman.c, lines 169-177). -/
def mrb_kalman_Q_thetad (d : kalman_data_s) : ℚ := d.Q_thetad_bias

/-- `mrb_kalman_R` (kalman.c, lines 190-198). -/
def mrb_kalman_R (d : kalman_data_s) : ℚ := d.R

/-- The double stored `k` doubles after the start of the struct
`kalman_data_s` (kalman.c, lines 38-48): thirteen doubles in declaration
order, `P[2][2]` occupying places 7 to 10 row by row and `K[2]` places 11 and
12.  A place outside the struct is outside the model (`none`). -/
def load_double (d : kalman_data_s) (k : ℤ) : Option ℚ :=
  if k = 0 then some d.theta_est
  else if k = 1 then some d.thetad_bias_est
  else if k = 2 then some d.Q_theta
  else if k = 3 then some d.Q_thetad_bias
  else if k = 4 then some d.R
  else if k = 5 then some d.y
  else if k = 6 then some d.S
  else if k = 7 then some d.P00
  else if k = 8 then some d.P01
  else if k = 9 then some d.P10
  else if k = 10 then some d.P11
  else if k = 11 then some d.K0
  else if k = 12 then some d.K1
  else none

/-- The struct after writing `v` to the double `k` doubles after its start
(same layout as `load_double`). -/
def store_double (d : kalman_data_s) (k : ℤ) (v : ℚ) : Option kalman_data_s :=
  if k = 0 then some { d with theta_est := v }
  else if k = 1 then some { d with thetad_bias_est := v }
  else if k = 2 then some { d with Q_theta := v }
  else if k = 3 then some { d with Q_thetad_bias := v }
  else if k = 4 then some { d with R := v }
  else if k = 5 then some { d with y := v }
  else if k = 6 then some { d with S := v }
  else if k = 7 then some { d with P00 := v }
  else if k = 8 then some { d with P01 := v }
  else if k = 9 then some { d with P10 := v }
  else if k = 10 then some { d with P11 := v }
  else if k = 11 then some { d with K0 := v }
  else if k = 12 then some { d with K1 := v }
  else none

/-- The place of `p_data->P[i][j]` for the C array `double P[2][2]`: the
address computation of the unchecked subscript, `2 * i + j` doubles after
`P[0][0]`. -/
def P_place (i j : ℤ) : ℤ := 7 + (2 * i + j)

/-- `mrb_kalman_P` (kalman.c, lines 231-241): the indexed read `P[i][j]` with
the two `mrb_int` arguments used as they come. -/
def mrb_kalman_P (d : kalman_data_s) (i j : ℤ) : Option ℚ :=
  load_double d (P_place i j)

/-- `mrb_kalman_set_P` (kalman.c, lines 243-254): the indexed write
`P[i][j] = v` followed by the read that is returned. -/
def mrb_kalman_set_P (d : kalman_data_s) (i j : ℤ) (v : ℚ) :
    Option (kalman_data_s × ℚ) :=
  match store_double d (P_place i j) v with
  | none => none
  | some d =>
    match load_double d (P_place i j) with
    | none => none
    | some x => some (d, x)

/-- `mrb_kalman_P_ary` (kalman.c, lines 212-229): the two loops over
`i = 0, 1` and `j = 0, 1` unrolled; each row is a line of `P[i][0]`, `P[i][1]`
and the lines are pushed in the order of `i`. -/
def mrb_kalman_P_ary (d : kalman_data_s) : Option (List (List ℚ)) := do
  let p00 ← load_double d (P_place 0 0)
  let p01 ← load_double d (P_place 0 1)
  let line0 := [p00, p01]
  let p10 ← load_double d (P_place 1 0)
  let p11 ← load_double d (P_place 1 1)
  let line1 := [p10, p11]
  pure [line0, line1]

/-- The predict step as the specification words it: all four covariance
entries computed from one snapshot `d` of the prior state (not code). -/
def estimate_step_snapshot (d : kalman_data_s) (dt thetad : ℚ) : kalman_data_s :=
  { d with
    theta_est := d.theta_est + dt * (thetad - d.thetad_bias_est)
    P00 := d.P00 + dt * (d.P11 * dt - d.P01 - d.P10 + d.Q_theta)
    P01 := d.P01 - d.P11 * dt
    P10 := d.P10 - d.P11 * dt
    P11 := d.P11 + d.Q_thetad_bias * dt }

/-- One call on the estimator that does not write `P` through `[]=`: an
`update` or one of the three parameter setters. -/
inductive call where
  | update (dt theta thetad : ℚ)
  | set_Q_theta (v : ℚ)
  | set_Q_thetad (v : ℚ)
  | set_R (v : ℚ)

/-- The struct after one call. -/
def call.apply (d : kalman_data_s) : call → kalman_data_s
  | call.update dt theta thetad => (mrb_kalman_update d dt theta thetad).1
  | call.set_Q_theta v => (mrb_kalman_set_Q_theta d v).1
  | call.set_Q_thetad v => (mrb_kalman_set_Q_thetad d v).1
  | call.set_R v => (mrb_kalman_set_R d v).1

/-- The calls that keep the noise model valid: `update` with `dt ≥ 0`,
process noises set to a value `≥ 0`, measurement noise set to a value `> 0`. -/
def call.valid : call → Prop
  | call.update dt _ _ => 0 ≤ dt
  | call.set_Q_theta v => 0 ≤ v
  | call.set_Q_thetad v => 0 ≤ v
  | call.set_R v => 0 < v

/-- The struct after a sequence of calls, first call first. -/
def exec (d : kalman_data_s) : List call → kalman_data_s
  | [] => d
  | c :: cs => exec (call.apply d c) cs

/-! ### The same code in IEEE 754 doubles

The definitions below read the C type `double` as binary64 with round to
nearest, ties to even: every arithmetic operation returns the representable
number nearest to the exact result, overflows to an infinity beyond the largest
finite double and is gradual below the smallest normal one.  Each C operator
is rounded on its own (no fused multiply-add, no wider intermediate format).
A zero carries no sign here; no use below depends on the sign of a zero.
The functions with suffix `_d` are the functions of the source once more, with
the same statements in the same order, over this arithmetic. -/

/-- The number of binary digits of `n`, counted by halving at most `fuel`
times. -/
def bit_length_aux : ℕ → ℕ → ℕ
  | 0, _ => 0
  | fuel + 1, n => if n = 0 then 0 else bit_length_aux fuel (n / 2) + 1

/-- The number of binary digits of `n` (`0` for `n = 0`); `n` halvings are
always enough. -/
def bit_length (n : ℕ) : ℕ := bit_length_aux n n

/-- The exponent `e` with `2 ^ e ≤ n / d < 2 ^ (e + 1)`, for `n, d > 0`. -/
def floor_log2 (n d : ℕ) : ℤ :=
  let e0 : ℤ := (bit_length n : ℤ) - (bit_length d : ℤ)
  if 0 ≤ e0 then
    if d * 2 ^ e0.toNat ≤ n then e0 else e0 - 1
  else
    if d ≤ n * 2 ^ (-e0).toNat then e0 else e0 - 1

/-- The integer nearest to `sn / sd`, a tie going to the even neighbour. -/
def round_half_even (sn sd : ℕ) : ℕ :=
  let m0 := sn / sd
  let r := sn % sd
  if 2 * r < sd then m0
  else if sd < 2 * r then m0 + 1
  else if m0 % 2 = 0 then m0 else m0 + 1

/-- A value of the C type `double`: a finite number, an infinity with its
sign (`neg = true` for the negative one), or a NaN. -/
inductive double where
  | fin (q : ℚ)
  | inf (neg : Bool)
  | nan
  deriving DecidableEq, Repr

/-- The double nearest to the rational `q` (ties to even): 53 significant
bits, the unit in the last place never below `2 ^ (-1074)`, and an infinity
when the rounded magnitude reaches `2 ^ 1024`. -/
def double.round (q : ℚ) : double :=
  if q = 0 then double.fin 0
  else
    let n := q.num.natAbs
    let d := q.den
    let e := floor_log2 n d
    let qe : ℤ := max e (-1022) - 52
    let m : ℕ :=
      if 0 ≤ qe then round_half_even n (d * 2 ^ qe.toNat)
      else round_half_even (n * 2 ^ (-qe).toNat) d
    let v : ℚ :=
      if 0 ≤ qe then ((m * 2 ^ qe.toNat : ℕ) : ℚ)
      else ((m : ℕ) : ℚ) / ((2 ^ (-qe).toNat : ℕ) : ℚ)
    if ((2 ^ 1024 : ℕ) : ℚ) ≤ v then double.inf (decide (q < 0))
    else if q < 0 then double.fin (-v) else double.fin v

/-- A literal or an argument of the program: the double nearest to `q`. -/
def double.lit (q : ℚ) : double := double.round q

/-- The C operator `+` on doubles. -/
def double.add : double → double → double
  | double.fin a, double.fin b => double.round (a + b)
  | double.fin _, double.inf s => double.inf s
  | double.inf s, double.fin _ => double.inf s
  | double.inf s, double.inf t => if s = t then double.inf s else double.nan
  | double.nan, _ => double.nan
  | _, double.nan => double.nan

/-- The C operator `-` on doubles. -/
def double.sub : double → double → double
  | double.fin a, double.fin b => double.round (a - b)
  | double.fin _, double.inf s => double.inf (!s)
  | double.inf s, double.fin _ => double.inf s
  | double.inf s, double.inf t => if s = t then double.nan else double.inf s
  | double.nan, _ => double.nan
  | _, double.nan => double.nan

/-- The C operator `*` on doubles. -/
def double.mul : double → double → double
  | double.fin a, double.fin b => double.round (a * b)
  | double.fin a, double.inf s =>
    if a = 0 then double.nan else double.inf (xor s (decide (a < 0)))
  | double.inf s, double.fin b =>
    if b = 0 then double.nan else double.inf (xor s (decide (b < 0)))
  | double.inf s, double.inf t => double.inf (xor s t)
  | double.nan, _ => double.nan
  | _, double.nan => double.nan

/-- The C operator `/` on doubles. -/
def double.div : double → double → double
  | double.fin a, double.fin b =>
    if b = 0 then (if a = 0 then double.nan else double.inf (decide (a < 0)))
    else double.round (a / b)
  | double.fin _, double.inf _ => double.fin 0
  | double.inf s, double.fin b => double.inf (xor s (decide (b < 0)))
  | double.inf _, double.inf _ => double.nan
  | double.nan, _ => double.nan
  | _, double.nan => double.nan

/-- The C comparison `x < y` on doubles (false when either side is a NaN). -/
def double.lt : double → double → Bool
  | double.fin a, double.fin b => decide (a < b)
  | double.fin _, double.inf s => !s
  | double.inf s, double.fin _ => s
  | double.inf s, double.inf t => s && !t
  | double.nan, _ => false
  | _, double.nan => false

/-- The C comparison `x <= y` on doubles (false when either side is a NaN). -/
def double.le : double → double → Bool
  | double.fin a, double.fin b => decide (a ≤ b)
  | double.fin _, double.inf s => !s
  | double.inf s, double.fin _ => s
  | double.inf s, double.inf t => s || !t
  | double.nan, _ => false
  | _, double.nan => false

instance : Add double := ⟨double.add⟩

instance : Sub double := ⟨double.sub⟩

instance : Mul double := ⟨double.mul⟩

instance : Div double := ⟨double.div⟩

/-- The C struct `kalman_data_s` (kalman.c, lines 38-48) with its thirteen
doubles as doubles. -/
structure kalman_data_d where
  theta_est : double
  thetad_bias_est : double
  Q_theta : double
  Q_thetad_bias : double
  R : double
  y : double
  S : double
  P00 : double
  P01 : double
  P10 : double
  P11 : double
  K0 : double
  K1 : double
  deriving DecidableEq, Repr

/-- The struct right after `memset(p_data, 0, sizeof(kalman_data_s))`
(kalman.c, line 91), in doubles. -/
def zeroed_d : kalman_data_d :=
  { theta_est := double.fin 0, thetad_bias_est := double.fin 0, Q_theta := double.fin 0,
    Q_thetad_bias := double.fin 0, R := double.fin 0, y := double.fin 0, S := double.fin 0,
    P00 := double.fin 0, P01 := double.fin 0, P10 := double.fin 0, P11 := double.fin 0,
    K0 := double.fin 0, K1 := double.fin 0 }

/-- `mrb_kalman_init` (kalman.c, lines 77-111) in doubles: the literals
`0.0000001`, `0.00001`, `2.0`, `10`, `0` are the doubles nearest to them. -/
def mrb_kalman_init_d (old : Option kalman_data_d) (theta thetad : double) :
    kalman_data_d :=
  let p_data := match old with
    | some _ => zeroed_d
    | none => zeroed_d
  let p_data := { p_data with theta_est := theta }
  let p_data := { p_data with thetad_bias_est := thetad }
  let p_data := { p_data with Q_theta := double.lit (1 / 10000000) }
  let p_data := { p_data with Q_thetad_bias := double.lit (1 / 100000) }
  let p_data := { p_data with R := double.lit 2 }
  let p_data := { p_data with P00 := double.lit 10 }
  let p_data := { p_data with P10 := double.lit 0 }
  let p_data := { p_data with P01 := double.lit 0 }
  let p_data := { p_data with P11 := double.lit 10 }
  p_data

/-- The "estimate step" of `mrb_kalman_update` (kalman.c, lines 266-271) in
doubles. -/
def estimate_step_d (d : kalman_data_d) (dt thetad : double) : kalman_data_d :=
  let d := { d with theta_est := d.theta_est + dt * (thetad - d.thetad_bias_est) }
  let d := { d with P00 := d.P00 + dt * (d.P11 * dt - d.P01 - d.P10 + d.Q_theta) }
  let d := { d with P01 := d.P01 - d.P11 * dt }
  let d := { d with P10 := d.P10 - d.P11 * dt }
  let d := { d with P11 := d.P11 + d.Q_thetad_bias * dt }
  d

/-- The "observation step" of `mrb_kalman_update` (kalman.c, lines 273-274)
in doubles. -/
def observation_step_d (d : kalman_data_d) (theta : double) : kalman_data_d :=
  let d := { d with y := theta - d.theta_est }
  let d := { d with S := d.P00 + d.R }
  d

/-- The "update step" of `mrb_kalman_update` (kalman.c, lines 276-285) in
doubles. -/
def update_step_d (d : kalman_data_d) : kalman_data_d :=
  let d := { d with K0 := d.P00 / d.S }
  let d := { d with K1 := d.P10 / d.S }
  let d := { d with theta_est := d.theta_est + d.K0 * d.y }
  let d := { d with thetad_bias_est := d.thetad_bias_est + d.K1 * d.y }
  let d := { d with P00 := d.P00 - d.K0 * d.P00 }
  let d := { d with P01 := d.P01 - d.K0 * d.P01 }
  let d := { d with P10 := d.P10 - d.K1 * d.P00 }
  let d := { d with P11 := d.P11 - d.K1 * d.P01 }
  d

/-- `mrb_kalman_update` (kalman.c, lines 256-288) in doubles: the struct after
the call and the returned float. -/
def mrb_kalman_update_d (d : kalman_data_d) (dt theta thetad : double) :
    kalman_data_d × double :=
  let d := estimate_step_d d dt thetad
  let d := observation_step_d d theta
  let d := update_step_d d
  (d, d.theta_est)

/-- The struct after the calls `update(dt, theta, thetad)` of a list, first
call first, in doubles. -/
def run_d (d : kalman_data_d) : List (double × double × double) → kalman_data_d
  | [] => d
  | (dt, theta, thetad) :: cs => run_d (mrb_kalman_update_d d dt theta thetad).1 cs

/-- `mrb_kalman_set_Q_theta` (kalman.c, lines 158-167) in doubles. -/
def mrb_kalman_set_Q_theta_d (d : kalman_data_d) (v : double) : kalman_data_d × double :=
  let d := { d with Q_theta := v }
  (d, d.Q_theta)

/-- `mrb_kalman_set_Q_thetad` (kalman.c, lines 179-188) in doubles. -/
def mrb_kalman_set_Q_thetad_d (d : kalman_data_d) (v : double) : kalman_data_d × double :=
  let d := { d with Q_thetad_bias := v }
  (d, d.Q_thetad_bias)

/-- The start of a zero-process-noise run in doubles: `Kalman.new(0, 0)`
followed by `Q_theta = 0` and `Q_thetad = 0` (`R` stays `2.0`). -/
def zero_noise_start_d : kalman_data_d :=
  let d := mrb_kalman_init_d none (double.lit 0) (double.lit 0)
  let d := (mrb_kalman_set_Q_theta_d d (double.lit 0)).1
  let d := (mrb_kalman_set_Q_thetad_d d (double.lit 0)).1
  d

end Kalman

namespace Kalman

/-! ## Shared lemmas: the sign pattern of `P` along a run -/

/-- The estimate step keeps the sign pattern when `dt` and the two process
noises are non-negative. -/
theorem estimate_step_covInv (d : kalman_data_s) (dt thetad : ℚ)
    (h : CovInv d) (hq : 0 ≤ d.Q_theta) (hb : 0 ≤ d.Q_thetad_bias) (hdt : 0 ≤ dt) :
    CovInv (estimate_step d dt thetad) := by
  obtain ⟨h00, h11, h01, h10, hdet⟩ := h
  simp only [CovInv, estimate_step]
  have e1 : 0 ≤ d.P11 * dt := mul_nonneg h11 hdt
  have e2 : 0 ≤ dt * (d.P11 * dt) := mul_nonneg hdt e1
  have e3 : 0 ≤ dt * (-d.P01) := mul_nonneg hdt (by linarith)
  have e4 : 0 ≤ dt * (-d.P10) := mul_nonneg hdt (by linarith)
  have e5 : 0 ≤ dt * d.Q_theta := mul_nonneg hdt hq
  have e6 : 0 ≤ d.Q_thetad_bias * dt := mul_nonneg hb hdt
  refine ⟨by nlinarith, by linarith, by linarith, by linarith, ?_⟩
  have a0 : 0 ≤ d.P00 + dt * (d.P11 * dt) + dt * (-d.P01) + dt * (-d.P10) := by linarith
  have e7 := mul_nonneg a0 e6
  have e8 := mul_nonneg e5 (add_nonneg h11 e6)
  nlinarith

/-- The observation and update steps keep the sign pattern when `R > 0`. -/
theorem correct_covInv (d : kalman_data_s) (theta : ℚ)
    (h : CovInv d) (hr : 0 < d.R) :
    CovInv (update_step (observation_step d theta)) := by
  obtain ⟨h00, h11, h01, h10, hdet⟩ := h
  have hs : 0 < d.P00 + d.R := by linarith
  have hsne : d.P00 + d.R ≠ 0 := ne_of_gt hs
  have hq : 0 ≤ (d.P00 + d.R) ^ 2 - d.P00 * d.R := by nlinarith
  simp only [CovInv, update_step, observation_step]
  have k0 : d.P00 - d.P00 / (d.P00 + d.R) * d.P00 = d.P00 * d.R / (d.P00 + d.R) := by
    field_simp; ring
  have k1 : d.P01 - d.P00 / (d.P00 + d.R) * d.P01 = d.P01 * d.R / (d.P00 + d.R) := by
    field_simp; ring
  rw [k0, k1]
  have k2 : d.P10 - d.P10 / (d.P00 + d.R) * (d.P00 * d.R / (d.P00 + d.R)) =
      d.P10 * ((d.P00 + d.R) ^ 2 - d.P00 * d.R) / (d.P00 + d.R) ^ 2 := by
    field_simp; ring
  have k3 : d.P11 - d.P10 / (d.P00 + d.R) * (d.P01 * d.R / (d.P00 + d.R)) =
      (d.P11 * ((d.P00 + d.R) ^ 2 - d.P00 * d.R) + d.R * (d.P00 * d.P11 - d.P01 * d.P10))
        / (d.P00 + d.R) ^ 2 := by
    field_simp; ring
  have k4 : d.P00 * d.R / (d.P00 + d.R) *
        (d.P11 - d.P10 / (d.P00 + d.R) * (d.P01 * d.R / (d.P00 + d.R))) -
      d.P01 * d.R / (d.P00 + d.R) *
        (d.P10 - d.P10 / (d.P00 + d.R) * (d.P00 * d.R / (d.P00 + d.R))) =
      d.R / (d.P00 + d.R) * (d.P00 * d.P11 - d.P01 * d.P10) := by
    field_simp; ring
  refine ⟨?_, ?_, ?_, ?_, ?_⟩
  · exact div_nonneg (mul_nonneg h00 hr.le) hs.le
  · rw [k3]
    exact div_nonneg (add_nonneg (mul_nonneg h11 hq) (mul_nonneg hr.le (by linarith)))
      (pow_nonneg hs.le 2)
  · exact div_nonpos_of_nonpos_of_nonneg (mul_nonpos_of_nonpos_of_nonneg h01 hr.le) hs.le
  · rw [k2]
    exact div_nonpos_of_nonpos_of_nonneg (mul_nonpos_of_nonpos_of_nonneg h10 hq)
      (pow_nonneg hs.le 2)
  · have := mul_nonneg (div_nonneg hr.le hs.le) (show 0 ≤ d.P00 * d.P11 - d.P01 * d.P10 by linarith)
    rw [← k4] at this
    linarith

/-- One call of `mrb_kalman_update` keeps the sign pattern. -/
theorem update_covInv (d : kalman_data_s) (dt theta thetad : ℚ)
    (h : CovInv d) (hq : 0 ≤ d.Q_theta) (hb : 0 ≤ d.Q_thetad_bias) (hr : 0 < d.R)
    (hdt : 0 ≤ dt) :
    CovInv (mrb_kalman_update d dt theta thetad).1 :=
  correct_covInv (estimate_step d dt thetad) theta
    (estimate_step_covInv d dt thetad h hq hb hdt) hr

/-- One call of `mrb_kalman_update` leaves `Q_theta`, `Q_thetad_bias`, `R` alone. -/
theorem update_params (d : kalman_data_s) (dt theta thetad : ℚ) :
    (mrb_kalman_update d dt theta thetad).1.Q_theta = d.Q_theta ∧
    (mrb_kalman_update d dt theta thetad).1.Q_thetad_bias = d.Q_thetad_bias ∧
    (mrb_kalman_update d dt theta thetad).1.R = d.R := by
  simp [mrb_kalman_update, estimate_step, observation_step, update_step]

/-- The sign pattern and the three parameters along `n` calls. -/
theorem run_covInv (d : kalman_data_s) (dt theta thetad : ℚ)
    (h : CovInv d) (hq : 0 ≤ d.Q_theta) (hb : 0 ≤ d.Q_thetad_bias) (hr : 0 < d.R)
    (hdt : 0 ≤ dt) (n : ℕ) :
    CovInv (run d dt theta thetad n) ∧
    (run d dt theta thetad n).Q_theta = d.Q_theta ∧
    (run d dt theta thetad n).Q_thetad_bias = d.Q_thetad_bias ∧
    (run d dt theta thetad n).R = d.R := by
  induction n with
  | zero => exact ⟨h, rfl, rfl, rfl⟩
  | succ n ih =>
    obtain ⟨hi, e1, e2, e3⟩ := ih
    obtain ⟨f1, f2, f3⟩ := update_params (run d dt theta thetad n) dt theta thetad
    refine ⟨?_, ?_, ?_, ?_⟩
    · exact update_covInv _ dt theta thetad hi (by rw [e1]; exact hq) (by rw [e2]; exact hb)
        (by rw [e3]; exact hr) hdt
    · simp only [run]; rw [f1, e1]
    · simp only [run]; rw [f2, e2]
    · simp only [run]; rw [f3, e3]

/-- The fields of the start of a zero-process-noise run. -/
theorem zero_noise_start_fields (theta0 r : ℚ) :
    CovInv (zero_noise_start theta0 r) ∧ (zero_noise_start theta0 r).Q_theta = 0 ∧
    (zero_noise_start theta0 r).Q_thetad_bias = 0 ∧ (zero_noise_start theta0 r).R = r ∧
    (zero_noise_start theta0 r).theta_est = theta0 ∧
    (zero_noise_start theta0 r).thetad_bias_est = 0 := by
  simp [CovInv, zero_noise_start, mrb_kalman_init, zeroed, mrb_kalman_set_Q_theta,
    mrb_kalman_set_Q_thetad, mrb_kalman_set_R]

/-- The sign pattern and the parameters along a zero-process-noise run. -/
theorem zero_noise_run (theta0 r dt theta thetad : ℚ) (hr : 0 < r) (hdt : 0 ≤ dt) (n : ℕ) :
    CovInv (run (zero_noise_start theta0 r) dt theta thetad n) ∧
    (run (zero_noise_start theta0 r) dt theta thetad n).Q_theta = 0 ∧
    (run (zero_noise_start theta0 r) dt theta thetad n).Q_thetad_bias = 0 ∧
    (run (zero_noise_start theta0 r) dt theta thetad n).R = r := by
  obtain ⟨h, e1, e2, e3, -, -⟩ := zero_noise_start_fields theta0 r
  have := run_covInv (zero_noise_start theta0 r) dt theta thetad h (by rw [e1]) (by rw [e2])
    (by rw [e3]; exact hr) hdt n
  rw [e1, e2, e3] at this
  exact this

/-- With a non-negative predicted `P[0][0]` and `R > 0`, the call leaves
`P[0][0]` at most the predicted value. -/
theorem update_P00_le (d : kalman_data_s) (dt theta thetad : ℚ)
    (h0 : 0 ≤ (estimate_step d dt thetad).P00) (hr : 0 < d.R) :
    (mrb_kalman_update d dt theta thetad).1.P00 ≤ (estimate_step d dt thetad).P00 := by
  have hR : (estimate_step d dt thetad).R = d.R := rfl
  have hs : 0 < (estimate_step d dt thetad).P00 + d.R := by linarith
  have c0 : 0 ≤ (estimate_step d dt thetad).P00 / ((estimate_step d dt thetad).P00 + d.R) :=
    div_nonneg h0 hs.le
  have : (mrb_kalman_update d dt theta thetad).1.P00 =
      (estimate_step d dt thetad).P00 -
        (estimate_step d dt thetad).P00 / ((estimate_step d dt thetad).P00 + d.R) *
          (estimate_step d dt thetad).P00 := by
    simp only [mrb_kalman_update, update_step, observation_step, hR]
  rw [this]
  nlinarith [mul_nonneg c0 h0]

/-- With a non-negative predicted `P[0][0]` and `R > 0`, the call leaves
`P[0][0]` equal to the predicted value times `R / S`. -/
theorem update_P00_eq (d : kalman_data_s) (dt theta thetad : ℚ)
    (h0 : 0 ≤ (estimate_step d dt thetad).P00) (hr : 0 < d.R) :
    (mrb_kalman_update d dt theta thetad).1.P00 =
      (estimate_step d dt thetad).P00 * d.R / ((estimate_step d dt thetad).P00 + d.R) := by
  have hR : (estimate_step d dt thetad).R = d.R := rfl
  have hs : 0 < (estimate_step d dt thetad).P00 + d.R := by linarith
  have hsne := ne_of_gt hs
  simp only [mrb_kalman_update, update_step, observation_step, hR]
  field_simp
  ring

/-- The returned estimate minus the measurement is `R / S` times the predicted
angle minus the measurement. -/
theorem update_theta_sub (d : kalman_data_s) (dt theta thetad : ℚ)
    (h0 : 0 ≤ (estimate_step d dt thetad).P00) (hr : 0 < d.R) :
    (mrb_kalman_update d dt theta thetad).2 - theta =
      d.R / ((estimate_step d dt thetad).P00 + d.R) *
        ((estimate_step d dt thetad).theta_est - theta) := by
  have hR : (estimate_step d dt thetad).R = d.R := rfl
  have hs : 0 < (estimate_step d dt thetad).P00 + d.R := by linarith
  have hsne := ne_of_gt hs
  simp only [mrb_kalman_update, update_step, observation_step, hR]
  field_simp
  ring

/-- With a non-negative predicted `P[0][0]` and `R > 0`, the returned estimate
is at least as close to the measurement as the predicted angle. -/
theorem update_dist_le (d : kalman_data_s) (dt theta thetad : ℚ)
    (h0 : 0 ≤ (estimate_step d dt thetad).P00) (hr : 0 < d.R) :
    |(mrb_kalman_update d dt theta thetad).2 - theta| ≤
      |(estimate_step d dt thetad).theta_est - theta| := by
  have hs : 0 < (estimate_step d dt thetad).P00 + d.R := by linarith
  rw [update_theta_sub d dt theta thetad h0 hr, abs_mul,
    abs_of_nonneg (div_nonneg hr.le hs.le)]
  have g1 : d.R / ((estimate_step d dt thetad).P00 + d.R) ≤ 1 := by
    rw [div_le_one hs]; linarith
  exact mul_le_of_le_one_left (abs_nonneg _) g1

/-! ## The claims -/

/-- Claim C1: for every state and every input, `update` leaves
`theta_est = tp + k0 * (theta_meas - tp)` and
`thetad_bias_est = bias + k1 * (theta_meas - tp)` and returns the new
`theta_est`, with `tp`, `P00p`, `P10p`, `s`, `k0`, `k1` computed from the
pre-call state as the claim lists them. -/
theorem update_estimates (d : kalman_data_s) (dt theta_meas thetad_meas : ℚ) :
    (mrb_kalman_update d dt theta_meas thetad_meas).1.theta_est =
      spec_tp d dt thetad_meas + spec_k0 d dt * (theta_meas - spec_tp d dt thetad_meas) ∧
    (mrb_kalman_update d dt theta_meas thetad_meas).1.thetad_bias_est =
      d.thetad_bias_est + spec_k1 d dt * (theta_meas - spec_tp d dt thetad_meas) ∧
    (mrb_kalman_update d dt theta_meas thetad_meas).2 =
      (mrb_kalman_update d dt theta_meas thetad_meas).1.theta_est := by
  simp [mrb_kalman_update, estimate_step, observation_step, update_step, spec_tp, spec_k0,
    spec_k1, spec_P00p, spec_P10p]

/-- Claim C2: for every state and every input, the covariance left by `update`
is `p00 = P00p - k0 * P00p`, `p01 = P01p - k0 * P01p`,
`p10 = P10p - k1 * p00` (the corrected `p00`) and `p11 = P11p - k1 * p01`
(the corrected `p01`), the predicted matrix being computed from the pre-call
`P` only. -/
theorem update_covariance (d : kalman_data_s) (dt theta_meas thetad_meas : ℚ) :
    (mrb_kalman_update d dt theta_meas thetad_meas).1.P00 =
      spec_P00p d dt - spec_k0 d dt * spec_P00p d dt ∧
    (mrb_kalman_update d dt theta_meas thetad_meas).1.P01 =
      spec_P01p d dt - spec_k0 d dt * spec_P01p d dt ∧
    (mrb_kalman_update d dt theta_meas thetad_meas).1.P10 =
      spec_P10p d dt - spec_k1 d dt * (mrb_kalman_update d dt theta_meas thetad_meas).1.P00 ∧
    (mrb_kalman_update d dt theta_meas thetad_meas).1.P11 =
      spec_P11p d dt - spec_k1 d dt * (mrb_kalman_update d dt theta_meas thetad_meas).1.P01 := by
  simp [mrb_kalman_update, estimate_step, observation_step, update_step, spec_k0, spec_k1,
    spec_P00p, spec_P01p, spec_P10p, spec_P11p]

/-- Claim C3 (evaluated at a failing input): on the default-constructed
estimator, whose `P` is symmetric and whose `R = 2 > 0`, the call
`update(1, 1, 0)` leaves `P[0][1] = -200000000/220000001` and
`P[1][0] = -444000004200000010/48400000440000001`, which differ: symmetry is
not preserved. -/
theorem symmetry_lost_at_default :
    (mrb_kalman_init none 0 0).P01 = (mrb_kalman_init none 0 0).P10 ∧
    0 < (mrb_kalman_init none 0 0).R ∧
    (mrb_kalman_update (mrb_kalman_init none 0 0) 1 1 0).1.P01 =
      -200000000 / 220000001 ∧
    (mrb_kalman_update (mrb_kalman_init none 0 0) 1 1 0).1.P10 =
      -444000004200000010 / 48400000440000001 ∧
    (mrb_kalman_update (mrb_kalman_init none 0 0) 1 1 0).1.P01 ≠
      (mrb_kalman_update (mrb_kalman_init none 0 0) 1 1 0).1.P10 := by
  simp only [mrb_kalman_update, estimate_step, observation_step, update_step,
    mrb_kalman_init, zeroed]
  norm_num

/-- Claim C4 (evaluated at a failing input): the default-constructed estimator
has a symmetric positive semi-definite `P`, non-negative process noises and
`R > 0`; after `update(1, 1, 0)` (so `dt = 1 ≥ 0`) the quadratic form of `P` is
negative at `x = (3, 1)`, so `P` is not positive semi-definite, and
`(p01 + p10)^2 ≤ 4 * p00 * p11` fails. -/
theorem psd_lost_at_default :
    (mrb_kalman_init none 0 0).P01 = (mrb_kalman_init none 0 0).P10 ∧
    PosSemidef (mrb_kalman_init none 0 0) ∧
    0 ≤ (mrb_kalman_init none 0 0).Q_theta ∧
    0 ≤ (mrb_kalman_init none 0 0).Q_thetad_bias ∧
    0 < (mrb_kalman_init none 0 0).R ∧
    ¬ PosSemidef (mrb_kalman_update (mrb_kalman_init none 0 0) 1 1 0).1 ∧
    ¬ (((mrb_kalman_update (mrb_kalman_init none 0 0) 1 1 0).1.P01 +
          (mrb_kalman_update (mrb_kalman_init none 0 0) 1 1 0).1.P10) ^ 2 ≤
        4 * (mrb_kalman_update (mrb_kalman_init none 0 0) 1 1 0).1.P00 *
          (mrb_kalman_update (mrb_kalman_init none 0 0) 1 1 0).1.P11) := by
  refine ⟨?_, ?_, ?_, ?_, ?_, ?_, ?_⟩
  · simp [mrb_kalman_init, zeroed]
  · intro x0 x1
    simp only [mrb_kalman_init, zeroed]
    nlinarith [mul_self_nonneg x0, mul_self_nonneg x1]
  · simp [mrb_kalman_init, zeroed]
  · simp [mrb_kalman_init, zeroed]
  · simp [mrb_kalman_init, zeroed]
  · intro h
    have h31 := h 3 1
    simp only [mrb_kalman_update, estimate_step, observation_step, update_step,
      mrb_kalman_init, zeroed] at h31
    norm_num at h31
  · simp only [mrb_kalman_update, estimate_step, observation_step, update_step,
      mrb_kalman_init, zeroed]
    norm_num

/-- Claim C5 (as stated, refuted): on the default-constructed estimator the
call `update(1, 1, 0)` does not have post-predict `p00 = 10.0000001`, nor
`s = 12.0000001`, nor `k0 = 10.0000001/12.0000001`, and the returned value is
not within relative error `1e-9` of `10.0000001/12.0000001`. -/
theorem single_update_numbers_refuted :
    (estimate_step (mrb_kalman_init none 0 0) 1 0).P00 ≠ 100000001 / 10000000 ∧
    (mrb_kalman_update (mrb_kalman_init none 0 0) 1 1 0).1.S ≠ 120000001 / 10000000 ∧
    (mrb_kalman_update (mrb_kalman_init none 0 0) 1 1 0).1.K0 ≠ 100000001 / 120000001 ∧
    ¬ (|(mrb_kalman_update (mrb_kalman_init none 0 0) 1 1 0).2 -
          (100000001 / 10000000) / (120000001 / 10000000)| ≤
      1 / 1000000000 * |(100000001 / 10000000 : ℚ) / (120000001 / 10000000)|) := by
  simp only [mrb_kalman_update, estimate_step, observation_step, update_step,
    mrb_kalman_init, zeroed]
  refine ⟨?_, ?_, ?_, ?_⟩
  · norm_num
  · norm_num
  · norm_num
  · norm_num [abs_of_pos]

/-- Claim C5 (amended): on the default-constructed estimator the call
`update(1, 1, 0)` predicts `theta_est = 0` and
`p00 = 10 + 1 * (10 * 1 - 0 - 0 + 1e-7) = 20.0000001`, has `s = 22.0000001`,
`k0 = 20.0000001/22.0000001`, and returns `k0`, which is within `1e-7` of
`0.9090909` and within relative error `1e-9` of `20.0000001/22.0000001`. -/
theorem single_update_numbers_amended :
    (estimate_step (mrb_kalman_init none 0 0) 1 0).theta_est = 0 ∧
    (estimate_step (mrb_kalman_init none 0 0) 1 0).P00 = 200000001 / 10000000 ∧
    (mrb_kalman_update (mrb_kalman_init none 0 0) 1 1 0).1.S = 220000001 / 10000000 ∧
    (mrb_kalman_update (mrb_kalman_init none 0 0) 1 1 0).1.K0 = 200000001 / 220000001 ∧
    (mrb_kalman_update (mrb_kalman_init none 0 0) 1 1 0).2 =
      (mrb_kalman_update (mrb_kalman_init none 0 0) 1 1 0).1.K0 ∧
    |(mrb_kalman_update (mrb_kalman_init none 0 0) 1 1 0).2 - 9090909 / 10000000| <
      1 / 10000000 ∧
    |(mrb_kalman_update (mrb_kalman_init none 0 0) 1 1 0).2 -
        (200000001 / 10000000) / (220000001 / 10000000)| ≤
      1 / 1000000000 * |(200000001 / 10000000 : ℚ) / (220000001 / 10000000)| := by
  simp only [mrb_kalman_update, estimate_step, observation_step, update_step,
    mrb_kalman_init, zeroed]
  refine ⟨?_, ?_, ?_, ?_, ?_, ?_, ?_⟩
  · norm_num
  · norm_num
  · norm_num
  · norm_num
  · norm_num
  · rw [abs_lt]; constructor <;> norm_num
  · norm_num

/-- Claim C6: on `construct(0, 0)` with the default parameters,
`update(0.01, 0.1, 5.0)` returns a value strictly between `0` and `0.1`, and
afterwards `thetad_bias_est` is non-zero and equals `K[1] * y` with the
innovation `y = 0.1 - 0.05` of that call. -/
theorem scenario_first_update :
    0 < (mrb_kalman_update (mrb_kalman_init none 0 0) (1 / 100) (1 / 10) 5).2 ∧
    (mrb_kalman_update (mrb_kalman_init none 0 0) (1 / 100) (1 / 10) 5).2 < 1 / 10 ∧
    (mrb_kalman_update (mrb_kalman_init none 0 0) (1 / 100) (1 / 10) 5).1.thetad_bias_est ≠ 0 ∧
    (mrb_kalman_update (mrb_kalman_init none 0 0) (1 / 100) (1 / 10) 5).1.y = 1 / 10 - 5 / 100 ∧
    (mrb_kalman_update (mrb_kalman_init none 0 0) (1 / 100) (1 / 10) 5).1.thetad_bias_est =
      (mrb_kalman_update (mrb_kalman_init none 0 0) (1 / 100) (1 / 10) 5).1.K1 *
        (mrb_kalman_update (mrb_kalman_init none 0 0) (1 / 100) (1 / 10) 5).1.y := by
  simp only [mrb_kalman_update, estimate_step, observation_step, update_step,
    mrb_kalman_init, zeroed]
  norm_num

/-- Claim C7 (as stated, refuted): from `construct(0, 0)` with both process
noises `0` and `R = 100`, the first call `update(1, 0, 0)` raises `P[0][0]`
from `10` to `50/3`. -/
theorem p00_monotone_refuted :
    (0 : ℚ) < 100 ∧ (0 : ℚ) < 1 ∧
    (run (zero_noise_start 0 100) 1 0 0 0).P00 = 10 ∧
    (run (zero_noise_start 0 100) 1 0 0 1).P00 = 50 / 3 ∧
    ¬ ((run (zero_noise_start 0 100) 1 0 0 1).P00 ≤ (run (zero_noise_start 0 100) 1 0 0 0).P00) := by
  simp only [run, mrb_kalman_update, estimate_step, observation_step, update_step,
    zero_noise_start, mrb_kalman_init, zeroed, mrb_kalman_set_Q_theta,
    mrb_kalman_set_Q_thetad, mrb_kalman_set_R]
  norm_num

/-- Claim C7 (amended): in exact arithmetic, for every `r > 0`, `dt > 0`,
`theta0` and `theta_meas`, along the run of repeated `update(dt, theta_meas, 0)`
from `construct(theta0, 0)` with both process noises `0` and `R = r`, each call
has a post-predict value `P00p = p00 + dt * (p11 * dt - p01 - p10) ≥ 0` and
leaves `P[0][0] = P00p * r / (P00p + r)`; so `P[0][0]` after the call is at most
`P00p` and below `r`, and it is at most its value before the call exactly when
`r * (P00p - p00) ≤ p00 * P00p`. -/
theorem p00_le_predicted_along_run (r dt theta0 theta_meas : ℚ) (hr : 0 < r) (hdt : 0 < dt)
    (n : ℕ) :
    0 ≤ (estimate_step (run (zero_noise_start theta0 r) dt theta_meas 0 n) dt 0).P00 ∧
    (run (zero_noise_start theta0 r) dt theta_meas 0 (n + 1)).P00 =
      (estimate_step (run (zero_noise_start theta0 r) dt theta_meas 0 n) dt 0).P00 * r /
        ((estimate_step (run (zero_noise_start theta0 r) dt theta_meas 0 n) dt 0).P00 + r) ∧
    (run (zero_noise_start theta0 r) dt theta_meas 0 (n + 1)).P00 ≤
      (estimate_step (run (zero_noise_start theta0 r) dt theta_meas 0 n) dt 0).P00 ∧
    (run (zero_noise_start theta0 r) dt theta_meas 0 (n + 1)).P00 < r ∧
    ((run (zero_noise_start theta0 r) dt theta_meas 0 (n + 1)).P00 ≤
        (run (zero_noise_start theta0 r) dt theta_meas 0 n).P00 ↔
      r * ((estimate_step (run (zero_noise_start theta0 r) dt theta_meas 0 n) dt 0).P00 -
          (run (zero_noise_start theta0 r) dt theta_meas 0 n).P00) ≤
        (run (zero_noise_start theta0 r) dt theta_meas 0 n).P00 *
          (estimate_step (run (zero_noise_start theta0 r) dt theta_meas 0 n) dt 0).P00) := by
  obtain ⟨hi, e1, e2, e3⟩ := zero_noise_run theta0 r dt theta_meas 0 hr hdt.le n
  have hp := (estimate_step_covInv _ dt 0 hi (by rw [e1]) (by rw [e2]) hdt.le).1
  have hR : 0 < (run (zero_noise_start theta0 r) dt theta_meas 0 n).R := by rw [e3]; exact hr
  have heq := update_P00_eq _ dt theta_meas 0 hp hR
  rw [e3] at heq
  have hs : 0 < (estimate_step (run (zero_noise_start theta0 r) dt theta_meas 0 n) dt 0).P00 + r := by
    linarith
  have hrun : (run (zero_noise_start theta0 r) dt theta_meas 0 (n + 1)).P00 =
      (mrb_kalman_update (run (zero_noise_start theta0 r) dt theta_meas 0 n) dt theta_meas 0).1.P00 :=
    rfl
  rw [hrun, heq]
  refine ⟨hp, rfl, ?_, ?_, ?_⟩
  · rw [div_le_iff₀ hs]; nlinarith [mul_nonneg hp hp]
  · rw [div_lt_iff₀ hs]; nlinarith [mul_pos hr hr]
  · rw [div_le_iff₀ hs]
    constructor <;> intro h <;> nlinarith

/-- Witness of the amended claim C7 at `r = 2`, `dt = 1`, `theta0 = 0`,
`theta_meas = 1`, fourth call. -/
theorem p00_le_predicted_along_run_witness :
    (0 : ℚ) < 2 ∧ (0 : ℚ) < 1 ∧
    (0 ≤ (estimate_step (run (zero_noise_start 0 2) 1 1 0 3) 1 0).P00 ∧
    (run (zero_noise_start 0 2) 1 1 0 (3 + 1)).P00 =
      (estimate_step (run (zero_noise_start 0 2) 1 1 0 3) 1 0).P00 * 2 /
        ((estimate_step (run (zero_noise_start 0 2) 1 1 0 3) 1 0).P00 + 2) ∧
    (run (zero_noise_start 0 2) 1 1 0 (3 + 1)).P00 ≤
      (estimate_step (run (zero_noise_start 0 2) 1 1 0 3) 1 0).P00 ∧
    (run (zero_noise_start 0 2) 1 1 0 (3 + 1)).P00 < 2 ∧
    ((run (zero_noise_start 0 2) 1 1 0 (3 + 1)).P00 ≤ (run (zero_noise_start 0 2) 1 1 0 3).P00 ↔
      2 * ((estimate_step (run (zero_noise_start 0 2) 1 1 0 3) 1 0).P00 -
          (run (zero_noise_start 0 2) 1 1 0 3).P00) ≤
        (run (zero_noise_start 0 2) 1 1 0 3).P00 *
          (estimate_step (run (zero_noise_start 0 2) 1 1 0 3) 1 0).P00)) :=
  ⟨by norm_num, by norm_num, p00_le_predicted_along_run 2 1 0 1 (by norm_num) (by norm_num) 3⟩

/-- Claim C8 (as stated, refuted): from `construct(0, 0)` with both process
noises `0` and `R = 10`, repeated `update(1, 1, 0)` reaches `theta_est = 1`
after the second call and leaves it at `4865/4502` after the third: the
distance to `theta_meas = 1` grows from `0` to `363/4502`. -/
theorem distance_monotone_refuted :
    (0 : ℚ) < 10 ∧ (0 : ℚ) < 1 ∧
    (run (zero_noise_start 0 10) 1 1 0 2).theta_est = 1 ∧
    (run (zero_noise_start 0 10) 1 1 0 3).theta_est = 4865 / 4502 ∧
    ¬ (|(run (zero_noise_start 0 10) 1 1 0 3).theta_est - 1| ≤
        |(run (zero_noise_start 0 10) 1 1 0 2).theta_est - 1|) := by
  simp only [run, mrb_kalman_update, estimate_step, observation_step, update_step,
    zero_noise_start, mrb_kalman_init, zeroed, mrb_kalman_set_Q_theta,
    mrb_kalman_set_Q_thetad, mrb_kalman_set_R]
  norm_num

/-- Claim C8 (amended): in exact arithmetic, for every `r > 0`, `dt > 0`,
`theta0` and `theta_meas`, along the run of repeated `update(dt, theta_meas, 0)`
from `construct(theta0, 0)` with both process noises `0` and `R = r`, each call
has a post-predict `P00p ≥ 0` and leaves
`theta_est - theta_meas = r / (P00p + r) * (tp - theta_meas)` for that call's
predicted angle `tp = theta_est - dt * bias_est`; so the distance
`|theta_est - theta_meas|` after the call is at most `|tp - theta_meas|`, and
the first call, where the bias is `0`, does not increase the distance. -/
theorem distance_le_predicted_along_run (r dt theta0 theta_meas : ℚ) (hr : 0 < r)
    (hdt : 0 < dt) (n : ℕ) :
    0 ≤ (estimate_step (run (zero_noise_start theta0 r) dt theta_meas 0 n) dt 0).P00 ∧
    (run (zero_noise_start theta0 r) dt theta_meas 0 (n + 1)).theta_est - theta_meas =
      r / ((estimate_step (run (zero_noise_start theta0 r) dt theta_meas 0 n) dt 0).P00 + r) *
        ((estimate_step (run (zero_noise_start theta0 r) dt theta_meas 0 n) dt 0).theta_est
          - theta_meas) ∧
    |(run (zero_noise_start theta0 r) dt theta_meas 0 (n + 1)).theta_est - theta_meas| ≤
      |(estimate_step (run (zero_noise_start theta0 r) dt theta_meas 0 n) dt 0).theta_est
        - theta_meas| ∧
    |(run (zero_noise_start theta0 r) dt theta_meas 0 1).theta_est - theta_meas| ≤
      |theta0 - theta_meas| := by
  have key : ∀ m : ℕ,
      |(run (zero_noise_start theta0 r) dt theta_meas 0 (m + 1)).theta_est - theta_meas| ≤
      |(estimate_step (run (zero_noise_start theta0 r) dt theta_meas 0 m) dt 0).theta_est
        - theta_meas| := by
    intro m
    obtain ⟨hi, e1, e2, e3⟩ := zero_noise_run theta0 r dt theta_meas 0 hr hdt.le m
    have hp := estimate_step_covInv _ dt 0 hi (by rw [e1]) (by rw [e2]) hdt.le
    exact update_dist_le _ dt theta_meas 0 hp.1 (by rw [e3]; exact hr)
  obtain ⟨hi, e1, e2, e3⟩ := zero_noise_run theta0 r dt theta_meas 0 hr hdt.le n
  have hp := (estimate_step_covInv _ dt 0 hi (by rw [e1]) (by rw [e2]) hdt.le).1
  have hsub := update_theta_sub _ dt theta_meas 0 hp (by rw [e3]; exact hr)
  rw [e3] at hsub
  refine ⟨hp, hsub, key n, ?_⟩
  have h1 := key 0
  have : (estimate_step (run (zero_noise_start theta0 r) dt theta_meas 0 0) dt 0).theta_est
      = theta0 := by
    simp [run, estimate_step, zero_noise_start, mrb_kalman_init, zeroed,
      mrb_kalman_set_Q_theta, mrb_kalman_set_Q_thetad, mrb_kalman_set_R]
  rw [this] at h1
  exact h1

/-- Witness of the amended claim C8 at `r = 10`, `dt = 1`, `theta0 = 0`,
`theta_meas = 1`, third call. -/
theorem distance_le_predicted_along_run_witness :
    (0 : ℚ) < 10 ∧ (0 : ℚ) < 1 ∧
    (0 ≤ (estimate_step (run (zero_noise_start 0 10) 1 1 0 2) 1 0).P00 ∧
    (run (zero_noise_start 0 10) 1 1 0 (2 + 1)).theta_est - 1 =
      10 / ((estimate_step (run (zero_noise_start 0 10) 1 1 0 2) 1 0).P00 + 10) *
        ((estimate_step (run (zero_noise_start 0 10) 1 1 0 2) 1 0).theta_est - 1) ∧
    |(run (zero_noise_start 0 10) 1 1 0 (2 + 1)).theta_est - 1| ≤
      |(estimate_step (run (zero_noise_start 0 10) 1 1 0 2) 1 0).theta_est - 1| ∧
    |(run (zero_noise_start 0 10) 1 1 0 1).theta_est - 1| ≤ |(0 : ℚ) - 1|) :=
  ⟨by norm_num, by norm_num,
    distance_le_predicted_along_run 10 1 0 1 (by norm_num) (by norm_num) 2⟩

/-- Why the amended claims C7 and C8 are stated for exact arithmetic: in
doubles, on the zero-process-noise start with `R = 2`, the call
`update(1e200, 1, 0)` predicts `P[0][0] = +inf` (`dt * dt * P[1][1]`
overflows), the gain `K[0] = inf / inf` is a NaN, and the call leaves
`P[0][0]` a NaN and returns a NaN, so neither `p00 ≤ P00p` nor any comparison
of `theta_est` holds there. -/
theorem double_overflow_at_huge_dt :
    (estimate_step_d zero_noise_start_d (double.lit (10 ^ 200)) (double.lit 0)).P00 =
      double.inf false ∧
    (mrb_kalman_update_d zero_noise_start_d (double.lit (10 ^ 200)) (double.lit 1)
      (double.lit 0)).1.K0 = double.nan ∧
    (mrb_kalman_update_d zero_noise_start_d (double.lit (10 ^ 200)) (double.lit 1)
      (double.lit 0)).1.P00 = double.nan ∧
    (mrb_kalman_update_d zero_noise_start_d (double.lit (10 ^ 200)) (double.lit 1)
      (double.lit 0)).2 = double.nan ∧
    double.le
      (mrb_kalman_update_d zero_noise_start_d (double.lit (10 ^ 200)) (double.lit 1)
        (double.lit 0)).1.P00
      (estimate_step_d zero_noise_start_d (double.lit (10 ^ 200)) (double.lit 0)).P00 =
      false := by
  decide!

/-- Claim C9: for every `theta0`, `bias0` and whatever the object held before,
`mrb_kalman_init` yields `theta_est = theta0`, `thetad_bias_est = bias0`,
`Q_theta = 1e-7`, `Q_thetad_bias = 1e-5`, `R = 2` and `P = [[10, 0], [0, 10]]`. -/
theorem init_fields (old : Option kalman_data_s) (theta0 bias0 : ℚ) :
    (mrb_kalman_init old theta0 bias0).theta_est = theta0 ∧
    (mrb_kalman_init old theta0 bias0).thetad_bias_est = bias0 ∧
    (mrb_kalman_init old theta0 bias0).Q_theta = 1 / 10000000 ∧
    (mrb_kalman_init old theta0 bias0).Q_thetad_bias = 1 / 100000 ∧
    (mrb_kalman_init old theta0 bias0).R = 2 ∧
    (mrb_kalman_init old theta0 bias0).P00 = 10 ∧
    (mrb_kalman_init old theta0 bias0).P01 = 0 ∧
    (mrb_kalman_init old theta0 bias0).P10 = 0 ∧
    (mrb_kalman_init old theta0 bias0).P11 = 10 := by
  cases old <;> simp [mrb_kalman_init, zeroed]

/-- Claim C10: with no argument the estimator starts at `theta_est = 0`,
`thetad_bias_est = 0`; with one argument `x` at `theta_est = x`,
`thetad_bias_est = 0`; with two arguments `(x, b)` at `theta_est = x`,
`thetad_bias_est = b`; whatever the object held before and whatever the
uninitialised local held. -/
theorem initialize_defaults (old : Option kalman_data_s) (garbage x b : ℚ) :
    (∃ d, mrb_kalman_initialize old garbage [] = some d ∧
      d.theta_est = 0 ∧ d.thetad_bias_est = 0) ∧
    (∃ d, mrb_kalman_initialize old garbage [x] = some d ∧
      d.theta_est = x ∧ d.thetad_bias_est = 0) ∧
    (∃ d, mrb_kalman_initialize old garbage [x, b] = some d ∧
      d.theta_est = x ∧ d.thetad_bias_est = b) := by
  refine ⟨⟨_, rfl, ?_, ?_⟩, ⟨_, rfl, ?_, ?_⟩, ⟨_, rfl, ?_, ?_⟩⟩ <;>
    cases old <;> simp [mrb_kalman_init, zeroed]

/-- The valid-noise sign pattern along any sequence of valid calls. -/
theorem exec_covInv (cs : List call) :
    ∀ d : kalman_data_s, CovInv d → 0 ≤ d.Q_theta → 0 ≤ d.Q_thetad_bias → 0 < d.R →
      (∀ c ∈ cs, call.valid c) →
      CovInv (exec d cs) ∧ 0 ≤ (exec d cs).Q_theta ∧ 0 ≤ (exec d cs).Q_thetad_bias ∧
        0 < (exec d cs).R := by
  induction cs with
  | nil => intro d h hq hb hr _; exact ⟨h, hq, hb, hr⟩
  | cons c cs ih =>
    intro d h hq hb hr hv
    have hc : call.valid c := hv c (List.mem_cons_self c cs)
    have hcs : ∀ x ∈ cs, call.valid x := fun x hx => hv x (List.mem_cons_of_mem c hx)
    simp only [exec]
    cases c with
    | update dt theta thetad =>
      obtain ⟨f1, f2, f3⟩ := update_params d dt theta thetad
      exact ih _ (update_covInv d dt theta thetad h hq hb hr hc)
        (by simp only [call.apply]; rw [f1]; exact hq)
        (by simp only [call.apply]; rw [f2]; exact hb)
        (by simp only [call.apply]; rw [f3]; exact hr) hcs
    | set_Q_theta v => exact ih _ h hc hb hr hcs
    | set_Q_thetad v => exact ih _ h hq hc hr hcs
    | set_R v => exact ih _ h hq hb hc hcs

/-- Claim C11: for every state, all `i, j` in `{0, 1}` and every value `v`,
`set P(i, j, v)` returns `v`, a following `get P(i, j)` returns `v`, the
whole-matrix read `P()` is the row-major `[[p00, p01], [p10, p11]]` whose
entry `[i][j]` is `v`, and the other three entries of `P` are unchanged. -/
theorem set_P_round_trip (d : kalman_data_s) (i j : ℤ) (v : ℚ)
    (hi : i = 0 ∨ i = 1) (hj : j = 0 ∨ j = 1) :
    ∃ d2, mrb_kalman_set_P d i j v = some (d2, v) ∧
      mrb_kalman_P d2 i j = some v ∧
      mrb_kalman_P_ary d2 = some [[d2.P00, d2.P01], [d2.P10, d2.P11]] ∧
      (∃ m, mrb_kalman_P_ary d2 = some m ∧
        (m.get? i.toNat).bind (fun line => line.get? j.toNat) = some v) ∧
      (∀ i2 j2 : ℤ, (i2 = 0 ∨ i2 = 1) → (j2 = 0 ∨ j2 = 1) → (i2, j2) ≠ (i, j) →
        mrb_kalman_P d2 i2 j2 = mrb_kalman_P d i2 j2) := by
  have ary : ∀ e : kalman_data_s,
      mrb_kalman_P_ary e = some [[e.P00, e.P01], [e.P10, e.P11]] := by
    intro e; simp [mrb_kalman_P_ary, load_double, P_place]
  rcases hi with rfl | rfl <;> rcases hj with rfl | rfl
  · refine ⟨{ d with P00 := v }, by simp [mrb_kalman_set_P, store_double, load_double, P_place],
      by simp [mrb_kalman_P, load_double, P_place], ary _, ⟨_, ary _, by simp⟩, ?_⟩
    rintro i2 j2 (rfl | rfl) (rfl | rfl) hne <;>
      simp [mrb_kalman_P, load_double, P_place] at hne ⊢
  · refine ⟨{ d with P01 := v }, by simp [mrb_kalman_set_P, store_double, load_double, P_place],
      by simp [mrb_kalman_P, load_double, P_place], ary _, ⟨_, ary _, by simp⟩, ?_⟩
    rintro i2 j2 (rfl | rfl) (rfl | rfl) hne <;>
      simp [mrb_kalman_P, load_double, P_place] at hne ⊢
  · refine ⟨{ d with P10 := v }, by simp [mrb_kalman_set_P, store_double, load_double, P_place],
      by simp [mrb_kalman_P, load_double, P_place], ary _, ⟨_, ary _, by simp⟩, ?_⟩
    rintro i2 j2 (rfl | rfl) (rfl | rfl) hne <;>
      simp [mrb_kalman_P, load_double, P_place] at hne ⊢
  · refine ⟨{ d with P11 := v }, by simp [mrb_kalman_set_P, store_double, load_double, P_place],
      by simp [mrb_kalman_P, load_double, P_place], ary _, ⟨_, ary _, by simp⟩, ?_⟩
    rintro i2 j2 (rfl | rfl) (rfl | rfl) hne <;>
      simp [mrb_kalman_P, load_double, P_place] at hne ⊢

/-- Witness of claim C11 at the default-constructed state, `i = 1`, `j = 0`,
`v = 5`. -/
theorem set_P_round_trip_witness :
    ((1 : ℤ) = 0 ∨ (1 : ℤ) = 1) ∧ ((0 : ℤ) = 0 ∨ (0 : ℤ) = 1) ∧
    ∃ d2, mrb_kalman_set_P (mrb_kalman_init none 0 0) 1 0 5 = some (d2, 5) ∧
      mrb_kalman_P d2 1 0 = some 5 ∧
      mrb_kalman_P_ary d2 = some [[d2.P00, d2.P01], [d2.P10, d2.P11]] ∧
      (∃ m, mrb_kalman_P_ary d2 = some m ∧
        (m.get? (1 : ℤ).toNat).bind (fun line => line.get? (0 : ℤ).toNat) = some 5) ∧
      (∀ i2 j2 : ℤ, (i2 = 0 ∨ i2 = 1) → (j2 = 0 ∨ j2 = 1) → (i2, j2) ≠ (1, 0) →
        mrb_kalman_P d2 i2 j2 = mrb_kalman_P (mrb_kalman_init none 0 0) i2 j2) :=
  ⟨Or.inr rfl, Or.inl rfl,
    set_P_round_trip (mrb_kalman_init none 0 0) 1 0 5 (Or.inr rfl) (Or.inl rfl)⟩

/-- Claim C12 (evaluated at failing inputs): an index outside `{0, 1}` raises
nothing.  After `update(1, 1, 0)` on the default state `get P(2, 0)` returns
the gain `K[0] = 200000001/220000001`; on the default state `set P(0, -1, 1)`
returns `1` and overwrites `S`, and `set P(0, 2, 1)` returns `1` and
overwrites the matrix entry `P[1][0]`. -/
theorem index_out_of_range_unchecked :
    mrb_kalman_P (mrb_kalman_update (mrb_kalman_init none 0 0) 1 1 0).1 2 0 =
      some (200000001 / 220000001) ∧
    mrb_kalman_set_P (mrb_kalman_init none 0 0) 0 (-1) 1 =
      some ({ mrb_kalman_init none 0 0 with S := 1 }, 1) ∧
    mrb_kalman_set_P (mrb_kalman_init none 0 0) 0 2 1 =
      some ({ mrb_kalman_init none 0 0 with P10 := 1 }, 1) ∧
    (mrb_kalman_init none 0 0).S ≠ 1 ∧ (mrb_kalman_init none 0 0).P10 ≠ 1 := by
  refine ⟨?_, ?_, ?_, ?_, ?_⟩
  · simp only [mrb_kalman_P, load_double, P_place, mrb_kalman_update, estimate_step,
      observation_step, update_step, mrb_kalman_init, zeroed]
    norm_num
  · simp [mrb_kalman_set_P, store_double, load_double, P_place]
  · simp [mrb_kalman_set_P, store_double, load_double, P_place]
  · simp [mrb_kalman_init, zeroed]
  · simp [mrb_kalman_init, zeroed]

/-- Claim C13: for each of `Q_theta`, `Q_thetad_bias` and `R`, for every
state and every value `v` (of either sign), the setter returns `v`, the
matching getter then returns `v`, and the struct afterwards is the old one
with that single field replaced. -/
theorem setters_overwrite (d : kalman_data_s) (v : ℚ) :
    ((mrb_kalman_set_Q_theta d v).2 = v ∧
      mrb_kalman_Q_theta (mrb_kalman_set_Q_theta d v).1 = v ∧
      (mrb_kalman_set_Q_theta d v).1 = { d with Q_theta := v }) ∧
    ((mrb_kalman_set_Q_thetad d v).2 = v ∧
      mrb_kalman_Q_thetad (mrb_kalman_set_Q_thetad d v).1 = v ∧
      (mrb_kalman_set_Q_thetad d v).1 = { d with Q_thetad_bias := v }) ∧
    ((mrb_kalman_set_R d v).2 = v ∧
      mrb_kalman_R (mrb_kalman_set_R d v).1 = v ∧
      (mrb_kalman_set_R d v).1 = { d with R := v }) :=
  ⟨⟨rfl, rfl, rfl⟩, ⟨rfl, rfl, rfl⟩, ⟨rfl, rfl, rfl⟩⟩

/-- Claim C14 (as stated, refuted): in the state left by `update(1, 1, 0)` on
the default estimator both `P[0][1]` and `P[1][0]` are non-zero, and the
sequential in-place estimate step of the code gives exactly the struct that
the snapshot computation gives. -/
theorem sequential_differs_refuted :
    (mrb_kalman_update (mrb_kalman_init none 0 0) 1 1 0).1.P01 ≠ 0 ∧
    (mrb_kalman_update (mrb_kalman_init none 0 0) 1 1 0).1.P10 ≠ 0 ∧
    estimate_step (mrb_kalman_update (mrb_kalman_init none 0 0) 1 1 0).1 1 0 =
      estimate_step_snapshot (mrb_kalman_update (mrb_kalman_init none 0 0) 1 1 0).1 1 0 := by
  refine ⟨?_, ?_, rfl⟩
  · simp only [mrb_kalman_update, estimate_step, observation_step, update_step,
      mrb_kalman_init, zeroed]
    norm_num
  · simp only [mrb_kalman_update, estimate_step, observation_step, update_step,
      mrb_kalman_init, zeroed]
    norm_num

/-- Claim C14 (amended): for every prior state and every `dt`, the four
covariance assignments executed sequentially in place in the order of the
code give the same result as computing all four from a snapshot of the prior
`P`. -/
theorem sequential_eq_snapshot (d : kalman_data_s) (dt thetad : ℚ) :
    estimate_step d dt thetad = estimate_step_snapshot d dt thetad := rfl

/-- Claim C15 (as stated, refuted in doubles): `Kalman.new`, then
`update(1e9, 1, 0)`, `update(9e5, 1, 0)` and four times `update(0, 1, 0)`, all
with `dt ≥ 0` and the default `Q_theta`, `Q_thetad_bias ≥ 0`, `R = 2 > 0`, leave
`P[1][1] = -3923179705729023/4398046511104` (about `-892.03`), so `p11 ≥ 0` is
lost; the next call `update(1e7, 1, 0)` then computes
`S = -13523197661590584`, and `S ≥ R` is false. -/
theorem double_gain_divisor_below_r :
    (run_d (mrb_kalman_init_d none (double.lit 0) (double.lit 0))
      [(double.lit 1000000000, double.lit 1, double.lit 0),
       (double.lit 900000, double.lit 1, double.lit 0),
       (double.lit 0, double.lit 1, double.lit 0),
       (double.lit 0, double.lit 1, double.lit 0),
       (double.lit 0, double.lit 1, double.lit 0),
       (double.lit 0, double.lit 1, double.lit 0)]).R = double.fin 2 ∧
    double.le (double.lit 0) (run_d (mrb_kalman_init_d none (double.lit 0) (double.lit 0))
      [(double.lit 1000000000, double.lit 1, double.lit 0),
       (double.lit 900000, double.lit 1, double.lit 0),
       (double.lit 0, double.lit 1, double.lit 0),
       (double.lit 0, double.lit 1, double.lit 0),
       (double.lit 0, double.lit 1, double.lit 0),
       (double.lit 0, double.lit 1, double.lit 0)]).Q_theta = true ∧
    double.le (double.lit 0) (run_d (mrb_kalman_init_d none (double.lit 0) (double.lit 0))
      [(double.lit 1000000000, double.lit 1, double.lit 0),
       (double.lit 900000, double.lit 1, double.lit 0),
       (double.lit 0, double.lit 1, double.lit 0),
       (double.lit 0, double.lit 1, double.lit 0),
       (double.lit 0, double.lit 1, double.lit 0),
       (double.lit 0, double.lit 1, double.lit 0)]).Q_thetad_bias = true ∧
    (run_d (mrb_kalman_init_d none (double.lit 0) (double.lit 0))
      [(double.lit 1000000000, double.lit 1, double.lit 0),
       (double.lit 900000, double.lit 1, double.lit 0),
       (double.lit 0, double.lit 1, double.lit 0),
       (double.lit 0, double.lit 1, double.lit 0),
       (double.lit 0, double.lit 1, double.lit 0),
       (double.lit 0, double.lit 1, double.lit 0)]).P11 = double.fin (-3923179705729023 / 4398046511104) ∧
    double.le (double.lit 0) (run_d (mrb_kalman_init_d none (double.lit 0) (double.lit 0))
      [(double.lit 1000000000, double.lit 1, double.lit 0),
       (double.lit 900000, double.lit 1, double.lit 0),
       (double.lit 0, double.lit 1, double.lit 0),
       (double.lit 0, double.lit 1, double.lit 0),
       (double.lit 0, double.lit 1, double.lit 0),
       (double.lit 0, double.lit 1, double.lit 0)]).P11 = false ∧
    (mrb_kalman_update_d (run_d (mrb_kalman_init_d none (double.lit 0) (double.lit 0))
      [(double.lit 1000000000, double.lit 1, double.lit 0),
       (double.lit 900000, double.lit 1, double.lit 0),
       (double.lit 0, double.lit 1, double.lit 0),
       (double.lit 0, double.lit 1, double.lit 0),
       (double.lit 0, double.lit 1, double.lit 0),
       (double.lit 0, double.lit 1, double.lit 0)])
      (double.lit 10000000) (double.lit 1) (double.lit 0)).1.S =
      double.fin (-13523197661590584) ∧
    double.le (run_d (mrb_kalman_init_d none (double.lit 0) (double.lit 0))
      [(double.lit 1000000000, double.lit 1, double.lit 0),
       (double.lit 900000, double.lit 1, double.lit 0),
       (double.lit 0, double.lit 1, double.lit 0),
       (double.lit 0, double.lit 1, double.lit 0),
       (double.lit 0, double.lit 1, double.lit 0),
       (double.lit 0, double.lit 1, double.lit 0)]).R
      (mrb_kalman_update_d (run_d (mrb_kalman_init_d none (double.lit 0) (double.lit 0))
      [(double.lit 1000000000, double.lit 1, double.lit 0),
       (double.lit 900000, double.lit 1, double.lit 0),
       (double.lit 0, double.lit 1, double.lit 0),
       (double.lit 0, double.lit 1, double.lit 0),
       (double.lit 0, double.lit 1, double.lit 0),
       (double.lit 0, double.lit 1, double.lit 0)])
        (double.lit 10000000) (double.lit 1) (double.lit 0)).1.S = false := by
  decide!

/-- Claim C15 (amended): in exact arithmetic, for every state reached from
`construct(theta0, bias0)` by any
sequence of `update` calls with `dt ≥ 0` and of parameter writes that keep
`Q_theta ≥ 0`, `Q_thetad_bias ≥ 0`, `R > 0` (no write to `P`), the state has
`p00 ≥ 0`, `p11 ≥ 0`, `p01 ≤ 0`, `p10 ≤ 0`, `p01 * p10 ≤ p00 * p11`, and the
innovation covariance `S` computed by the next `update` with `dt ≥ 0`
satisfies `S ≥ R > 0`. -/
theorem gain_divisor_positive (old : Option kalman_data_s) (theta0 bias0 : ℚ)
    (cs : List call) (hv : ∀ c ∈ cs, call.valid c) (dt theta thetad : ℚ) (hdt : 0 ≤ dt) :
    CovInv (exec (mrb_kalman_init old theta0 bias0) cs) ∧
    0 < (exec (mrb_kalman_init old theta0 bias0) cs).R ∧
    (exec (mrb_kalman_init old theta0 bias0) cs).R ≤
      (mrb_kalman_update (exec (mrb_kalman_init old theta0 bias0) cs) dt theta thetad).1.S := by
  have h0 : CovInv (mrb_kalman_init old theta0 bias0) := by
    cases old <;> simp [CovInv, mrb_kalman_init, zeroed]
  have hq : 0 ≤ (mrb_kalman_init old theta0 bias0).Q_theta := by
    cases old <;> simp [mrb_kalman_init, zeroed]
  have hb : 0 ≤ (mrb_kalman_init old theta0 bias0).Q_thetad_bias := by
    cases old <;> simp [mrb_kalman_init, zeroed]
  have hr : 0 < (mrb_kalman_init old theta0 bias0).R := by
    cases old <;> simp [mrb_kalman_init, zeroed]
  obtain ⟨hi, gq, gb, gr⟩ := exec_covInv cs _ h0 hq hb hr hv
  have hp := estimate_step_covInv _ dt thetad hi gq gb hdt
  refine ⟨hi, gr, ?_⟩
  have : (mrb_kalman_update (exec (mrb_kalman_init old theta0 bias0) cs) dt theta thetad).1.S =
      (estimate_step (exec (mrb_kalman_init old theta0 bias0) cs) dt thetad).P00 +
        (exec (mrb_kalman_init old theta0 bias0) cs).R := rfl
  rw [this]
  linarith [hp.1]

/-- Witness of claim C15 at the default state followed by `update(1, 1, 0)`,
`R = 3`, `update(1/2, 1, 0)`, next call `update(1, 1, 0)`. -/
theorem gain_divisor_positive_witness :
    (∀ c ∈ [call.update 1 1 0, call.set_R 3, call.update (1 / 2) 1 0], call.valid c) ∧
    (0 : ℚ) ≤ 1 ∧
    CovInv (exec (mrb_kalman_init none 0 0)
      [call.update 1 1 0, call.set_R 3, call.update (1 / 2) 1 0]) ∧
    0 < (exec (mrb_kalman_init none 0 0)
      [call.update 1 1 0, call.set_R 3, call.update (1 / 2) 1 0]).R ∧
    (exec (mrb_kalman_init none 0 0)
      [call.update 1 1 0, call.set_R 3, call.update (1 / 2) 1 0]).R ≤
      (mrb_kalman_update (exec (mrb_kalman_init none 0 0)
        [call.update 1 1 0, call.set_R 3, call.update (1 / 2) 1 0]) 1 1 0).1.S :=
  ⟨by simp [call.valid], by norm_num,
    gain_divisor_positive none 0 0 [call.update 1 1 0, call.set_R 3, call.update (1 / 2) 1 0]
      (by simp [call.valid]) 1 1 0 (by norm_num)⟩

/-- Claim C16 (as stated, refuted in doubles): on the default-constructed
estimator (`R = 2 > 0`) the call `update(1e8, 1, 0)` predicts
`P[0][0] = 100000000000000032 ≥ 0`, in which `R` is absorbed, so the gain is
`K[0] = 1` and `K[0] < 1` is false; and the call `update(1e8, 1, 1e8)` predicts
the angle `tp = 1e16` and returns `0`, which is not between `theta_meas = 1`
and `tp`. -/
theorem double_gain_reaches_one :
    (mrb_kalman_init_d none (double.lit 0) (double.lit 0)).R = double.fin 2 ∧
    (estimate_step_d (mrb_kalman_init_d none (double.lit 0) (double.lit 0))
      (double.lit 100000000) (double.lit 0)).P00 = double.fin 100000000000000032 ∧
    (mrb_kalman_update_d (mrb_kalman_init_d none (double.lit 0) (double.lit 0))
      (double.lit 100000000) (double.lit 1) (double.lit 0)).1.K0 = double.fin 1 ∧
    double.lt
      (mrb_kalman_update_d (mrb_kalman_init_d none (double.lit 0) (double.lit 0))
        (double.lit 100000000) (double.lit 1) (double.lit 0)).1.K0 (double.lit 1) = false ∧
    (estimate_step_d (mrb_kalman_init_d none (double.lit 0) (double.lit 0))
      (double.lit 100000000) (double.lit 100000000)).theta_est =
      double.fin 10000000000000000 ∧
    (mrb_kalman_update_d (mrb_kalman_init_d none (double.lit 0) (double.lit 0))
      (double.lit 100000000) (double.lit 1) (double.lit 100000000)).2 = double.fin 0 ∧
    double.le (double.lit 1)
      (mrb_kalman_update_d (mrb_kalman_init_d none (double.lit 0) (double.lit 0))
        (double.lit 100000000) (double.lit 1) (double.lit 100000000)).2 = false := by
  decide!

/-- Claim C16 (amended): in exact arithmetic, for every state and input with
`R > 0` and post-predict
`p00 = P00p ≥ 0`, the gain `K[0]` satisfies `0 ≤ K[0] < 1` and the value
returned by `update` lies between the predicted angle
`tp = theta_est + dt * (thetad_meas - bias_est)` and `theta_meas`. -/
theorem update_convex (d : kalman_data_s) (dt theta_meas thetad_meas : ℚ)
    (hr : 0 < d.R) (h0 : 0 ≤ spec_P00p d dt) :
    0 ≤ (mrb_kalman_update d dt theta_meas thetad_meas).1.K0 ∧
    (mrb_kalman_update d dt theta_meas thetad_meas).1.K0 < 1 ∧
    min (spec_tp d dt thetad_meas) theta_meas ≤
      (mrb_kalman_update d dt theta_meas thetad_meas).2 ∧
    (mrb_kalman_update d dt theta_meas thetad_meas).2 ≤
      max (spec_tp d dt thetad_meas) theta_meas := by
  have hs : 0 < spec_P00p d dt + d.R := by linarith
  have k0 : 0 ≤ spec_P00p d dt / (spec_P00p d dt + d.R) := div_nonneg h0 hs.le
  have k1 : spec_P00p d dt / (spec_P00p d dt + d.R) < 1 := by
    rw [div_lt_one hs]; linarith
  have hK : (mrb_kalman_update d dt theta_meas thetad_meas).1.K0 =
      spec_P00p d dt / (spec_P00p d dt + d.R) := rfl
  have hret : (mrb_kalman_update d dt theta_meas thetad_meas).2 =
      spec_tp d dt thetad_meas + spec_P00p d dt / (spec_P00p d dt + d.R) *
        (theta_meas - spec_tp d dt thetad_meas) := rfl
  rw [hK, hret]
  refine ⟨k0, k1, ?_, ?_⟩
  · rcases le_total (spec_tp d dt thetad_meas) theta_meas with h | h
    · rw [min_eq_left h]; nlinarith [mul_nonneg k0 (sub_nonneg.mpr h)]
    · rw [min_eq_right h]; nlinarith [mul_nonneg (sub_nonneg.mpr k1.le) (sub_nonneg.mpr h)]
  · rcases le_total (spec_tp d dt thetad_meas) theta_meas with h | h
    · rw [max_eq_right h]; nlinarith [mul_nonneg (sub_nonneg.mpr k1.le) (sub_nonneg.mpr h)]
    · rw [max_eq_left h]; nlinarith [mul_nonneg k0 (sub_nonneg.mpr h)]

/-- Witness of claim C16 at the default state and `update(1, 1, 0)`. -/
theorem update_convex_witness :
    0 < (mrb_kalman_init none 0 0).R ∧ 0 ≤ spec_P00p (mrb_kalman_init none 0 0) 1 ∧
    0 ≤ (mrb_kalman_update (mrb_kalman_init none 0 0) 1 1 0).1.K0 ∧
    (mrb_kalman_update (mrb_kalman_init none 0 0) 1 1 0).1.K0 < 1 ∧
    min (spec_tp (mrb_kalman_init none 0 0) 1 0) 1 ≤
      (mrb_kalman_update (mrb_kalman_init none 0 0) 1 1 0).2 ∧
    (mrb_kalman_update (mrb_kalman_init none 0 0) 1 1 0).2 ≤
      max (spec_tp (mrb_kalman_init none 0 0) 1 0) 1 :=
  ⟨by simp [mrb_kalman_init, zeroed], by norm_num [spec_P00p, mrb_kalman_init, zeroed],
    update_convex (mrb_kalman_init none 0 0) 1 1 0 (by simp [mrb_kalman_init, zeroed])
      (by norm_num [spec_P00p, mrb_kalman_init, zeroed])⟩

/-- Claim C17 (as stated, refuted in doubles): on the default-constructed
estimator (`R = 2 > 0`) the call `update(1e4, 1, 0)` predicts
`P[0][0] = 8388608083894469/8388608 ≥ 0` (about `1000000010.001`) and leaves
`P[0][0] = 2 = R`, so `p00 < r` is false and `p00` is not
`P00p * r / (P00p + r)`; the call `update(1e8, 1, 0)` leaves `P[0][0] = 0`. -/
theorem double_p00_reaches_r :
    (mrb_kalman_init_d none (double.lit 0) (double.lit 0)).R = double.fin 2 ∧
    (estimate_step_d (mrb_kalman_init_d none (double.lit 0) (double.lit 0))
      (double.lit 10000) (double.lit 0)).P00 = double.fin (8388608083894469 / 8388608) ∧
    (mrb_kalman_update_d (mrb_kalman_init_d none (double.lit 0) (double.lit 0))
      (double.lit 10000) (double.lit 1) (double.lit 0)).1.P00 = double.fin 2 ∧
    double.lt
      (mrb_kalman_update_d (mrb_kalman_init_d none (double.lit 0) (double.lit 0))
        (double.lit 10000) (double.lit 1) (double.lit 0)).1.P00
      (mrb_kalman_init_d none (double.lit 0) (double.lit 0)).R = false ∧
    (8388608083894469 / 8388608 : ℚ) * 2 / (8388608083894469 / 8388608 + 2) ≠ 2 ∧
    (mrb_kalman_update_d (mrb_kalman_init_d none (double.lit 0) (double.lit 0))
      (double.lit 100000000) (double.lit 1) (double.lit 0)).1.P00 = double.fin 0 := by
  decide!

/-- Claim C17 (amended): in exact arithmetic, for every state and input with
`R > 0` and post-predict
`p00 = P00p ≥ 0`, the `p00` left by `update` equals `P00p * R / (P00p + R)`,
hence `0 ≤ p00 ≤ P00p` and `p00 < R`. -/
theorem update_P00_closed_form (d : kalman_data_s) (dt theta_meas thetad_meas : ℚ)
    (hr : 0 < d.R) (h0 : 0 ≤ spec_P00p d dt) :
    (mrb_kalman_update d dt theta_meas thetad_meas).1.P00 =
      spec_P00p d dt * d.R / (spec_P00p d dt + d.R) ∧
    0 ≤ (mrb_kalman_update d dt theta_meas thetad_meas).1.P00 ∧
    (mrb_kalman_update d dt theta_meas thetad_meas).1.P00 ≤ spec_P00p d dt ∧
    (mrb_kalman_update d dt theta_meas thetad_meas).1.P00 < d.R := by
  have hs : 0 < spec_P00p d dt + d.R := by linarith
  have hP : (mrb_kalman_update d dt theta_meas thetad_meas).1.P00 =
      spec_P00p d dt - spec_P00p d dt / (spec_P00p d dt + d.R) * spec_P00p d dt := rfl
  have e : spec_P00p d dt - spec_P00p d dt / (spec_P00p d dt + d.R) * spec_P00p d dt =
      spec_P00p d dt * d.R / (spec_P00p d dt + d.R) := by
    field_simp; ring
  rw [hP, e]
  refine ⟨rfl, div_nonneg (mul_nonneg h0 hr.le) hs.le, ?_, ?_⟩
  · rw [div_le_iff₀ hs]; nlinarith [mul_nonneg h0 h0]
  · rw [div_lt_iff₀ hs]; nlinarith [mul_pos hr hr]

/-- Witness of claim C17 at the default state and `update(1, 1, 0)`. -/
theorem update_P00_closed_form_witness :
    0 < (mrb_kalman_init none 0 0).R ∧ 0 ≤ spec_P00p (mrb_kalman_init none 0 0) 1 ∧
    (mrb_kalman_update (mrb_kalman_init none 0 0) 1 1 0).1.P00 =
      spec_P00p (mrb_kalman_init none 0 0) 1 * (mrb_kalman_init none 0 0).R /
        (spec_P00p (mrb_kalman_init none 0 0) 1 + (mrb_kalman_init none 0 0).R) ∧
    0 ≤ (mrb_kalman_update (mrb_kalman_init none 0 0) 1 1 0).1.P00 ∧
    (mrb_kalman_update (mrb_kalman_init none 0 0) 1 1 0).1.P00 ≤
      spec_P00p (mrb_kalman_init none 0 0) 1 ∧
    (mrb_kalman_update (mrb_kalman_init none 0 0) 1 1 0).1.P00 <
      (mrb_kalman_init none 0 0).R :=
  ⟨by simp [mrb_kalman_init, zeroed], by norm_num [spec_P00p, mrb_kalman_init, zeroed],
    update_P00_closed_form (mrb_kalman_init none 0 0) 1 1 0 (by simp [mrb_kalman_init, zeroed])
      (by norm_num [spec_P00p, mrb_kalman_init, zeroed])⟩

/-- Claim C18: for every state and every input, the state after `update` has
the same `Q_theta`, `Q_thetad_bias` and `R` as before; the fields it writes
are `theta_est`, `thetad_bias_est`, `P`, `y`, `S` and `K`. -/
theorem update_keeps_parameters (d : kalman_data_s) (dt theta_meas thetad_meas : ℚ) :
    mrb_kalman_Q_theta (mrb_kalman_update d dt theta_meas thetad_meas).1 =
      mrb_kalman_Q_theta d ∧
    mrb_kalman_Q_thetad (mrb_kalman_update d dt theta_meas thetad_meas).1 =
      mrb_kalman_Q_thetad d ∧
    mrb_kalman_R (mrb_kalman_update d dt theta_meas thetad_meas).1 = mrb_kalman_R d :=
  ⟨rfl, rfl, rfl⟩

end Kalman
